import Mathlib

/-!
Shallow embedding of the claudanfibot repository (a Telegram front-end that
relays user messages to a remote completion API, persisting per-user settings,
an append-only conversation log and a truncated session history in SQLite).

Source files embedded:
  * `src/app/api/claude_client.py` — `ClaudeClient.send_message`, the
    `Database` class (users / conversations / sessions tables) and the
    `SessionManager` class.
  * `src/app/main.py` — the `set_temp_command` handler and the
    `handle_message` orchestrator.

The SQLite tables are modelled as lists of rows inside a `DBState`; each
Python method that opens a connection, runs SQL and commits becomes a pure
function from `DBState` to `DBState` (or to `Except` when the SQL can raise).
Timestamps (`created_at`, `updated_at`, `timestamp`) are not modelled: no
claim depends on their values.
-/

namespace ClaudanfiBot

/-- One chat turn `{role, content}` as stored in the session history JSON. -/
structure Msg where
  role : String
  content : String
deriving DecidableEq, Repr

/-- A JSON settings value: a string (model name), a number modelled as a
rational (Python float: temperature), or an integer (max response tokens). -/
inductive SettingVal where
  | str (v : String)
  | num (v : Rat)
  | int (v : Int)
deriving DecidableEq, Repr

/-- The per-user settings JSON object, as an ordered key/value list
(Python dicts preserve insertion order and `json.dumps`/`json.loads`
round-trips them). -/
abbrev Settings := List (String × SettingVal)

/-- Python `settings.get(k)` / `settings[k]` read: first binding of the key. -/
def Settings.getVal (s : Settings) (k : String) : Option SettingVal :=
  (s.find? (fun p => p.1 == k)).map Prod.snd

/-- Python `settings[key] = value`: replace the binding in place when the key is
present, append it otherwise (Python dict assignment). -/
def Settings.setVal (s : Settings) (k : String) (v : SettingVal) : Settings :=
  if s.any (fun p => p.1 == k) then
    s.map (fun p => if p.1 == k then (k, v) else p)
  else
    s ++ [(k, v)]

/-- A row of the `users` table: `user_id INTEGER PRIMARY KEY, username TEXT,
settings TEXT` (the settings JSON is kept parsed). -/
structure UserRow where
  user_id : Int
  username : String
  settings : Settings
deriving DecidableEq, Repr

/-- A row of the `conversations` audit-log table (the AUTOINCREMENT id and
timestamp are positional: the list order is insertion order). -/
structure ConvRow where
  user_id : Int
  user_message : String
  bot_response : String
deriving DecidableEq, Repr

/-- A row of the `sessions` table: `user_id INTEGER PRIMARY KEY, history TEXT`
(the history JSON is kept parsed). -/
structure SessionRow where
  user_id : Int
  history : List Msg
deriving DecidableEq, Repr

/-- The whole SQLite database `claude_bot.db`. -/
structure DBState where
  users : List UserRow
  conversations : List ConvRow
  sessions : List SessionRow
deriving DecidableEq, Repr

/-! ## Database (claude_client.py lines 59–179) -/

/-- Method `Database.user_exists`: `SELECT 1 FROM users WHERE user_id = ?`. -/
def user_exists (db : DBState) (uid : Int) : Bool :=
  db.users.any (fun u => u.user_id == uid)

/-- The `default_settings` JSON written by `Database.register_user`. -/
def default_settings : Settings :=
  [("model", .str "claude-3-7-sonnet-20250219"),
   ("temperature", .num (7 / 10)),
   ("max_tokens", .int 4000)]

/-- Errors raised by the database layer: a plain `INSERT` hitting an existing
PRIMARY KEY raises `sqlite3.IntegrityError` (UNIQUE constraint failed). -/
inductive DBError where
  | integrityError
deriving DecidableEq, Repr

/-- Method `Database.register_user`: `INSERT INTO users (user_id, username, settings)
VALUES (?, ?, ?)` with the default settings JSON. `user_id` is the PRIMARY
KEY, and the INSERT has no OR-IGNORE/OR-REPLACE clause, so inserting an
existing id raises an integrity error and commits nothing. -/
def register_user (db : DBState) (uid : Int) (username : String) :
    Except DBError DBState :=
  if user_exists db uid then
    .error .integrityError
  else
    .ok { db with users := db.users ++ [⟨uid, username, default_settings⟩] }

/-- Method `Database.get_user_settings`: `SELECT settings FROM users WHERE
user_id = ?`; parses the JSON when a row exists, returns `{}` otherwise. -/
def get_user_settings (db : DBState) (uid : Int) : Settings :=
  match db.users.find? (fun u => u.user_id == uid) with
  | some u => u.settings
  | none => []

/-- Method `Database.update_user_setting`: read-modify-write — reads the current
settings via `get_user_settings`, assigns `settings[key] = value`, then
`UPDATE users SET settings = ? WHERE user_id = ?`. The UPDATE touches only
rows matching the id; when no row matches it affects nothing and raises
no error. -/
def update_user_setting (db : DBState) (uid : Int) (key : String)
    (value : SettingVal) : DBState :=
  { db with
    users := db.users.map (fun u =>
      if u.user_id == uid then
        { u with settings := (get_user_settings db uid).setVal key value }
      else u) }

/-- Method `Database.log_conversation`: `INSERT INTO conversations (user_id,
user_message, bot_response) VALUES (?, ?, ?)` — appends one row. -/
def log_conversation (db : DBState) (uid : Int) (user_message : String)
    (bot_response : String) : DBState :=
  { db with conversations := db.conversations ++ [⟨uid, user_message, bot_response⟩] }

/-! ## SessionManager (claude_client.py lines 188–241) -/

/-- Method `SessionManager.get_session`: `SELECT history FROM sessions WHERE
user_id = ?`; parses the JSON when a row exists, returns `[]` otherwise. -/
def get_session (db : DBState) (uid : Int) : List Msg :=
  match db.sessions.find? (fun s => s.user_id == uid) with
  | some s => s.history
  | none => []

/-- Constant `max_messages = 10` in `SessionManager.update_session` (the number of
exchanged pairs kept; each pair is two entries). -/
def max_messages : Nat := 10

/-- The truncation in `SessionManager.update_session`:
`if len(history) > max_messages * 2: history = history[-max_messages * 2:]`
— keep the most-recent `2 * max_messages` entries. -/
def truncate_history (history : List Msg) : List Msg :=
  if history.length > max_messages * 2 then
    history.drop (history.length - max_messages * 2)
  else
    history

/-- Method `SessionManager.update_session`: truncates, then
`INSERT OR REPLACE INTO sessions (user_id, history, updated_at) VALUES ...`
— an upsert keyed by the `user_id` PRIMARY KEY. -/
def update_session (db : DBState) (uid : Int) (history : List Msg) : DBState :=
  if db.sessions.any (fun s => s.user_id == uid) then
    { db with
      sessions := db.sessions.map (fun s =>
        if s.user_id == uid then ⟨uid, truncate_history history⟩ else s) }
  else
    { db with sessions := db.sessions ++ [⟨uid, truncate_history history⟩] }

/-- Method `SessionManager.clear_session`: `UPDATE sessions SET history = '[]' WHERE
user_id = ?` — empties the stored history of matching rows only; creates no
row when none matches. -/
def clear_session (db : DBState) (uid : Int) : DBState :=
  { db with
    sessions := db.sessions.map (fun s =>
      if s.user_id == uid then { s with history := [] } else s) }

/-! ## ClaudeClient (claude_client.py lines 7–49) -/

/-- One block of the API response `content` array; the caller reads its
`text` field. -/
structure ContentBlock where
  text : String
deriving DecidableEq, Repr

/-- The parsed JSON body of a successful API response, as far as the caller
inspects it: the `content` array. -/
structure ApiResponse where
  content : List ContentBlock
deriving DecidableEq, Repr

/-- The one HTTP response observed by a `send_message` call (the network
itself is external): its status code, the raw body text
(`await response.text()`), and the parsed JSON (`await response.json()`). -/
structure HttpResponse where
  status : Nat
  body : String
  parsed : ApiResponse
deriving DecidableEq, Repr

/-- The exception raised by `send_message`:
`Exception(f"API error: {response.status}, {error_text}")` — it carries the
status code and the raw response body. -/
structure ApiError where
  status : Nat
  body : String
deriving DecidableEq, Repr

/-- The message string of the raised exception. -/
def ApiError.message (e : ApiError) : String :=
  "API error: " ++ toString e.status ++ ", " ++ e.body

/-- Method `ClaudeClient.send_message`, as a function of the single HTTP response
the one request produced (no retry: one request, one response per call):
raises on any status other than 200, returns the parsed JSON on 200. -/
def send_message (resp : HttpResponse) : Except ApiError ApiResponse :=
  if resp.status != 200 then
    .error ⟨resp.status, resp.body⟩
  else
    .ok resp.parsed

/-! ## main.py: commands and the orchestrator -/

/-- Value of a list of decimal digit characters. -/
def digitsToNat (cs : List Char) : Nat :=
  cs.foldl (fun a c => a * 10 + (c.toNat - 48)) 0

/-- Non-empty run of decimal digits. -/
def allDigits (cs : List Char) : Bool :=
  !cs.isEmpty && cs.all Char.isDigit

/-- ASCII whitespace stripped by Python's `float()` / `str.strip()`. -/
def isSpaceChar (c : Char) : Bool :=
  c == ' ' || c == '\t' || c == '\n' || c == '\r' || c == '\x0b' || c == '\x0c'

/-- Strip leading and trailing whitespace. -/
def trimChars (cs : List Char) : List Char :=
  ((cs.dropWhile isSpaceChar).reverse.dropWhile isSpaceChar).reverse

/-- Split at the first character satisfying `sep`: the part before it and
the part after it, or `none` when no such character occurs. -/
def splitFirst (sep : Char → Bool) : List Char → Option (List Char × List Char)
  | [] => none
  | c :: rest =>
    if sep c then some ([], rest)
    else (splitFirst sep rest).map (fun p => (c :: p.1, p.2))

/-- Mantissa of a Python float literal: digits, optionally with one decimal
point, at least one digit overall (`"1"`, `"1.5"`, `"1."`, `".5"`). -/
def parseMantissa (cs : List Char) : Option Rat :=
  match splitFirst (fun c => c == '.') cs with
  | none => if allDigits cs then some (digitsToNat cs : Rat) else none
  | some (ip, fp) =>
      if (ip.isEmpty || ip.all Char.isDigit) &&
         (fp.isEmpty || fp.all Char.isDigit) &&
         !(ip.isEmpty && fp.isEmpty) then
        some ((digitsToNat ip : Rat) +
          (digitsToNat fp : Rat) / ((10 : Rat) ^ fp.length))
      else none

/-- Exponent part after `e`/`E`: optional sign then digits. -/
def parseExponent (cs : List Char) : Option Int :=
  match cs with
  | '+' :: rest => if allDigits rest then some (digitsToNat rest : Int) else none
  | '-' :: rest => if allDigits rest then some (-(digitsToNat rest : Int)) else none
  | _ => if allDigits cs then some (digitsToNat cs : Int) else none

/-- Unsigned Python float literal: mantissa with optional `e`/`E` exponent. -/
def parseUnsignedFloat (cs : List Char) : Option Rat :=
  match splitFirst (fun c => c == 'e' || c == 'E') cs with
  | none => parseMantissa cs
  | some (m, e) => do
      let mant ← parseMantissa m
      let ex ← parseExponent e
      pure (mant * (10 : Rat) ^ ex)

/-- Python's `float(str)` on finite decimal literals, as an exact rational:
strips surrounding whitespace, accepts an optional leading sign, digits with
an optional decimal point and an optional exponent; anything else (e.g.
`"abc"`) raises `ValueError`, i.e. `none`. The special forms `inf`/`nan` and
digit-group underscores are not modelled; no claim mentions them. -/
def float_of_string (s : String) : Option Rat :=
  match trimChars s.data with
  | '+' :: rest => parseUnsignedFloat rest
  | '-' :: rest => (parseUnsignedFloat rest).map Neg.neg
  | cs => parseUnsignedFloat cs

/-- Reply strings of `set_temp_command` (main.py lines 93–108). -/
def set_temp_usage_message : String :=
  "Пожалуйста, укажите значение temperature (0.0 - 1.0)."

/-- Reply when the argument does not parse as a float (`ValueError`). -/
def set_temp_value_message : String :=
  "Пожалуйста, укажите корректное числовое значение."

/-- Reply when the parsed value is outside `[0.0, 1.0]`. -/
def set_temp_range_message : String :=
  "Temperature должен быть в диапазоне от 0.0 до 1.0."

/-- Handler `set_temp_command` (main.py lines 93–108) as a state transformer: takes
the command arguments `context.args`, returns the new database state and the
reply text. `float(context.args[0])` failing (`ValueError`) and an
out-of-range value both leave the state untouched. -/
def set_temp_command (db : DBState) (uid : Int) (args : List String) :
    DBState × String :=
  match args with
  | [] => (db, set_temp_usage_message)
  | arg :: _ =>
    match float_of_string arg with
    | none => (db, set_temp_value_message)
    | some temp =>
      if 0 ≤ temp ∧ temp ≤ 1 then
        (update_user_setting db uid "temperature" (.num temp),
         "Temperature установлен на " ++ toString temp ++ ".")
      else
        (db, set_temp_range_message)

/-- The generation parameters `handle_message` passes to
`claude_client.send_message` (main.py lines 132–134): each read with
`settings.get(key, default)`. -/
structure RequestParams where
  model : SettingVal
  temperature : SettingVal
  max_tokens : SettingVal
deriving DecidableEq, Repr

/-- Reads `settings.get("model", "claude-3-7-sonnet-20250219")` etc. resolved from
the user's stored settings (main.py lines 132–134). -/
def request_params (db : DBState) (uid : Int) : RequestParams :=
  let settings := get_user_settings db uid
  { model := (settings.getVal "model").getD (.str "claude-3-7-sonnet-20250219")
    temperature := (settings.getVal "temperature").getD (.num (7 / 10))
    max_tokens := (settings.getVal "max_tokens").getD (.int 4000) }

/-- The generic apology sent when the `try` block of `handle_message`
raises (main.py lines 152–156). -/
def generic_error_message : String :=
  "Произошла ошибка при обработке вашего запроса. Пожалуйста, попробуйте еще раз позже."

/-- Handler `handle_message` (main.py lines 111–156) as a state transformer over the
database, parameterised by the single HTTP response the Claude API call
produced. It loads settings and history, appends the user turn to the
in-memory list, calls `send_message`, and on success extracts
`response["content"][0]["text"]`, appends the assistant turn, persists via
`update_session` and appends to the audit log via `log_conversation`. Any
exception in the `try` block — the non-200 `send_message` error or the
`IndexError` from an empty `content` array — is caught by the generic
handler, which persists nothing and replies with the apology. -/
def handle_message (db : DBState) (uid : Int) (user_message : String)
    (resp : HttpResponse) : DBState × String :=
  let history := get_session db uid
  let history := history ++ [⟨"user", user_message⟩]
  match send_message resp with
  | .error _ => (db, generic_error_message)
  | .ok r =>
    match r.content with
    | [] => (db, generic_error_message)
    | c :: _ =>
      let claude_response := c.text
      let history := history ++ [⟨"assistant", claude_response⟩]
      let db := update_session db uid history
      let db := log_conversation db uid user_message claude_response
      (db, claude_response)

/-! ## Helper lemmas

The three SQLite tables are lists of rows keyed (for `users` and `sessions`)
by a PRIMARY KEY integer. The UPDATE / INSERT OR REPLACE statements become
maps that rewrite exactly the rows matching the key; these generic lemmas
describe `find?` (the SELECT) after such a map. -/

/-- SELECT after a keyed UPDATE: looking up the updated key finds the
image under `f` of the previously found row, provided `f` preserves the
key of matching rows. -/
theorem find_map_same {α β : Type} [BEq β] [LawfulBEq β] (key : α → β) (uid : β) (f : α → α)
    (hf : ∀ a, key a = uid → key (f a) = uid) (l : List α) :
    (l.map (fun s => if key s == uid then f s else s)).find?
      (fun s => key s == uid) = (l.find? (fun s => key s == uid)).map f := by
  induction l with
  | nil => rfl
  | cons a t ih =>
    rw [List.map_cons]
    cases hc : (key a == uid) with
    | true =>
      have ha : key a = uid := by simpa using hc
      have hp : (key (f a) == uid) = true := by simp [hf a ha]
      rw [if_pos rfl, List.find?_cons_of_pos (p := fun s => key s == uid) _ hp,
        List.find?_cons_of_pos (p := fun s => key s == uid) _ hc]
      rfl
    | false =>
      have hna : ¬ (key a == uid) = true := by simp [hc]
      rw [if_neg (by simp), List.find?_cons_of_neg (p := fun s => key s == uid) _ hna,
        List.find?_cons_of_neg (p := fun s => key s == uid) _ hna, ih]

/-- SELECT after a keyed UPDATE: looking up any other key is unaffected. -/
theorem find_map_other {α β : Type} [BEq β] [LawfulBEq β] (key : α → β) (uid uid2 : β) (f : α → α)
    (hne : uid2 ≠ uid) (hf : ∀ a, key a = uid → key (f a) = uid) (l : List α) :
    (l.map (fun s => if key s == uid then f s else s)).find?
      (fun s => key s == uid2) = l.find? (fun s => key s == uid2) := by
  induction l with
  | nil => rfl
  | cons a t ih =>
    rw [List.map_cons]
    cases hc : (key a == uid) with
    | true =>
      have ha : key a = uid := by simpa using hc
      have hfa : ¬ (key (f a) == uid2) = true := by simp [hf a ha, Ne.symm hne]
      have haa : ¬ (key a == uid2) = true := by simp [ha, Ne.symm hne]
      rw [if_pos rfl, List.find?_cons_of_neg (p := fun s => key s == uid2) _ hfa,
        List.find?_cons_of_neg (p := fun s => key s == uid2) _ haa, ih]
    | false =>
      have hna : ¬ (key a == uid) = true := by simp [hc]
      rw [if_neg (by simp)]
      cases hc2 : (key a == uid2) with
      | true =>
        rw [List.find?_cons_of_pos (p := fun s => key s == uid2) _ hc2,
          List.find?_cons_of_pos (p := fun s => key s == uid2) _ hc2]
      | false =>
        have hna2 : ¬ (key a == uid2) = true := by simp [hc2]
        rw [List.find?_cons_of_neg (p := fun s => key s == uid2) _ hna2,
          List.find?_cons_of_neg (p := fun s => key s == uid2) _ hna2, ih]

/-- A keyed UPDATE matching no row (the key is absent) rewrites nothing. -/
theorem map_id_of_key_absent {α β : Type} [BEq β] [LawfulBEq β] (key : α → β) (uid : β) (f : α → α)
    (l : List α) (hany : l.any (fun s => key s == uid) = false) :
    l.map (fun s => if key s == uid then f s else s) = l := by
  induction l with
  | nil => rfl
  | cons a t ih =>
    rw [List.any_cons, Bool.or_eq_false_iff] at hany
    rw [List.map_cons, if_neg (by simp [hany.1]), ih hany.2]

/-- When no row of `l` matches the key, SELECT returns nothing. -/
theorem find_none_of_any_false {α : Type} (p : α → Bool) (l : List α)
    (hany : l.any p = false) : l.find? p = none :=
  List.find?_eq_none.mpr (fun x hx => by
    have := (List.any_eq_false.mp hany) x hx
    simpa using this)

/-- Lemma stating `get_session` in `Option` form. -/
theorem get_session_eq (db : DBState) (uid : Int) :
    get_session db uid =
      ((db.sessions.find? (fun s => s.user_id == uid)).map
        SessionRow.history).getD [] := by
  unfold get_session
  cases db.sessions.find? (fun s => s.user_id == uid) <;> rfl

/-- Lemma stating `get_user_settings` in `Option` form. -/
theorem get_user_settings_eq (db : DBState) (uid : Int) :
    get_user_settings db uid =
      ((db.users.find? (fun u => u.user_id == uid)).map
        UserRow.settings).getD [] := by
  unfold get_user_settings
  cases db.users.find? (fun u => u.user_id == uid) <;> rfl

/-- Looking up a user id right after `update_session` wrote it returns the
truncated history. -/
theorem get_session_update_session (db : DBState) (uid : Int) (x : List Msg) :
    get_session (update_session db uid x) uid = truncate_history x := by
  rw [update_session]
  cases hany : db.sessions.any (fun s => s.user_id == uid) with
  | true =>
    rw [if_pos rfl, get_session_eq]
    dsimp only
    rw [find_map_same SessionRow.user_id uid
      (fun _ => ⟨uid, truncate_history x⟩) (fun a _ => rfl) db.sessions]
    obtain ⟨s0, hs0⟩ : ∃ s0,
        db.sessions.find? (fun s => s.user_id == uid) = some s0 := by
      rw [← Option.isSome_iff_exists, List.find?_isSome]
      simpa using List.any_eq_true.mp hany
    rw [hs0]
    rfl
  | false =>
    rw [if_neg (by simp), get_session_eq]
    dsimp only
    have hsingle : List.find? (fun s => s.user_id == uid)
        [({ user_id := uid, history := truncate_history x } : SessionRow)] =
        some { user_id := uid, history := truncate_history x } :=
      List.find?_cons_of_pos _ (by simp)
    rw [List.find?_append,
      find_none_of_any_false (fun s : SessionRow => s.user_id == uid) _ hany,
      hsingle]
    rfl

/-- Truncation `truncate_history` is exactly "keep the last `2 * max_messages`
entries": dropping all but the final `2 * max_messages` elements
(`Nat` subtraction saturates, so short lists are untouched). -/
theorem truncate_history_eq_drop (x : List Msg) :
    truncate_history x = x.drop (x.length - 2 * max_messages) := by
  unfold truncate_history
  by_cases hlen : x.length > max_messages * 2
  · simp [hlen, Nat.mul_comm]
  · have h0 : x.length - 2 * max_messages = 0 := by
      unfold max_messages at *
      omega
    simp [hlen, h0]

/-- Running `clear_session` then `get_session` on the same id yields `[]`, whether a
sessions row existed (its history is emptied) or not (no row to find). -/
theorem get_session_clear_session (db : DBState) (uid : Int) :
    get_session (clear_session db uid) uid = [] := by
  rw [clear_session, get_session_eq]
  dsimp only
  rw [find_map_same SessionRow.user_id uid (fun s => { s with history := [] })
    (fun a ha => ha) db.sessions]
  cases db.sessions.find? (fun s => s.user_id == uid) <;> rfl

/-- Running `clear_session` does not touch any other user's session. -/
theorem get_session_clear_session_other (db : DBState) (uid uid2 : Int)
    (hne : uid2 ≠ uid) :
    get_session (clear_session db uid) uid2 = get_session db uid2 := by
  rw [clear_session, get_session_eq, get_session_eq]
  dsimp only
  rw [find_map_other SessionRow.user_id uid uid2 (fun s => { s with history := [] })
    hne (fun a ha => ha) db.sessions]

/-- For a registered user, `update_user_setting` stores exactly the
read-modify-write image of the old settings map. -/
theorem get_user_settings_update (db : DBState) (uid : Int) (k : String)
    (v : SettingVal) (hex : user_exists db uid = true) :
    get_user_settings (update_user_setting db uid k v) uid =
      (get_user_settings db uid).setVal k v := by
  rw [update_user_setting, get_user_settings_eq]
  dsimp only
  rw [find_map_same UserRow.user_id uid
    (fun u => { u with settings := (get_user_settings db uid).setVal k v })
    (fun a ha => ha) db.users]
  have hex' : db.users.any (fun u => u.user_id == uid) = true := hex
  obtain ⟨u0, hu0⟩ : ∃ u0, db.users.find? (fun u => u.user_id == uid) = some u0 := by
    rw [← Option.isSome_iff_exists, List.find?_isSome]
    simpa using List.any_eq_true.mp hex'
  rw [hu0]
  rfl

/-- Running `update_user_setting` for an id with no users row is a complete no-op:
the UPDATE matches nothing. -/
theorem update_user_setting_absent (db : DBState) (uid : Int) (k : String)
    (v : SettingVal) (hab : user_exists db uid = false) :
    update_user_setting db uid k v = db := by
  have hab' : db.users.any (fun u => u.user_id == uid) = false := hab
  rw [update_user_setting,
    map_id_of_key_absent UserRow.user_id uid _ db.users hab']

/-- Reading the settings of a user row just appended by `register_user`
returns the settings it was created with. -/
theorem get_user_settings_append (db : DBState) (uid : Int) (name : String)
    (hab : user_exists db uid = false) :
    get_user_settings
      { db with users := db.users ++ [⟨uid, name, default_settings⟩] } uid =
      default_settings := by
  have hab' : db.users.any (fun u => u.user_id == uid) = false := hab
  rw [get_user_settings_eq]
  dsimp only
  have hsingle : List.find? (fun u => u.user_id == uid)
      [({ user_id := uid, username := name, settings := default_settings } : UserRow)] =
      some { user_id := uid, username := name, settings := default_settings } :=
    List.find?_cons_of_pos _ (by simp)
  rw [List.find?_append,
    find_none_of_any_false (fun u : UserRow => u.user_id == uid) _ hab', hsingle]
  rfl

/-- Python `settings[k] = v`: reading `k` afterwards yields `v`. -/
theorem getVal_setVal_self (s : Settings) (k : String) (v : SettingVal) :
    (s.setVal k v).getVal k = some v := by
  rw [Settings.setVal]
  cases hany : s.any (fun p => p.1 == k) with
  | true =>
    rw [if_pos rfl, Settings.getVal,
      find_map_same Prod.fst k (fun _ => (k, v)) (fun a _ => rfl) s]
    obtain ⟨p0, hp0⟩ : ∃ p0, s.find? (fun p => p.1 == k) = some p0 := by
      rw [← Option.isSome_iff_exists, List.find?_isSome]
      simpa using List.any_eq_true.mp hany
    rw [hp0]
    rfl
  | false =>
    rw [if_neg (by simp), Settings.getVal]
    have hsingle : List.find? (fun p => p.1 == k) [(k, v)] = some (k, v) :=
      List.find?_cons_of_pos _ (by simp)
    rw [List.find?_append,
      find_none_of_any_false (fun p : String × SettingVal => p.1 == k) _ hany,
      hsingle]
    rfl

/-- Python `settings[k] = v`: reading any other key is unaffected. -/
theorem getVal_setVal_other (s : Settings) (k k2 : String) (v : SettingVal)
    (hne : k2 ≠ k) :
    (s.setVal k v).getVal k2 = s.getVal k2 := by
  rw [Settings.setVal]
  cases hany : s.any (fun p => p.1 == k) with
  | true =>
    rw [if_pos rfl, Settings.getVal, Settings.getVal,
      find_map_other Prod.fst k k2 (fun _ => (k, v)) hne (fun a _ => rfl) s]
  | false =>
    rw [if_neg (by simp), Settings.getVal, Settings.getVal]
    have hsingle : List.find? (fun p => p.1 == k2) [(k, v)] = none := by
      have hnk : ¬ (((k, v) : String × SettingVal).1 == k2) = true := by
        simp [Ne.symm hne]
      rw [List.find?_cons_of_neg (p := fun p : String × SettingVal => p.1 == k2) _ hnk]
      rfl
    rw [List.find?_append, hsingle]
    cases s.find? (fun p => p.1 == k2) <;> rfl

/-- Python `float("abc")` raises `ValueError`. -/
theorem float_of_string_abc : float_of_string "abc" = none := by decide

/-- Python `float("1.5")` is the rational `3/2`. -/
theorem float_of_string_15 : float_of_string "1.5" = some (3 / 2) := by
  have h : float_of_string "1.5" =
      some ((1 : Rat) + (5 : Rat) / 10 ^ (1 : Nat)) := rfl
  rw [h]
  norm_num

/-! ## Claims -/

/-- C1: for every user id and history list `x`, `update_session` followed by
`get_session` returns exactly the most-recent suffix of `x` of length
`min (length x) (2 * max_messages)` with `max_messages = 10`; in particular
the persisted history never exceeds 20 entries, and histories of at most 20
entries are persisted unchanged. -/
theorem C1_session_save_load_truncates (db : DBState) (uid : Int)
    (x : List Msg) :
    get_session (update_session db uid x) uid =
      x.drop (x.length - 2 * max_messages) ∧
    (get_session (update_session db uid x) uid).length =
      min x.length (2 * max_messages) ∧
    (x.length ≤ 2 * max_messages →
      get_session (update_session db uid x) uid = x) := by
  have h := get_session_update_session db uid x
  rw [truncate_history_eq_drop] at h
  refine ⟨h, ?_, ?_⟩
  · rw [h, List.length_drop]
    omega
  · intro hle
    rw [h]
    have h0 : x.length - 2 * max_messages = 0 := by omega
    rw [h0, List.drop_zero]

/-- Witness for C1 at a concrete one-entry history. -/
theorem C1_witness :
    get_session (update_session ⟨[], [], []⟩ 7 [⟨"user", "hi"⟩]) 7 =
      [⟨"user", "hi"⟩] :=
  (C1_session_save_load_truncates ⟨[], [], []⟩ 7 [⟨"user", "hi"⟩]).2.2 (by decide)

/-- C2: when the Claude API call fails at step 4 — a non-200 response, or the
`IndexError` on an empty `content` array — `handle_message` leaves the whole
database (session history and audit log) exactly as it was: the user turn
appended in step 3 lives only in the in-memory list, `update_session` and
`log_conversation` are never reached, and the caller gets the generic
apology. -/
theorem C2_model_failure_preserves_state (db : DBState) (uid : Int)
    (m : String) (resp : HttpResponse) :
    (resp.status ≠ 200 →
      handle_message db uid m resp = (db, generic_error_message)) ∧
    (resp.parsed.content = [] →
      handle_message db uid m resp = (db, generic_error_message)) := by
  constructor
  · intro hfail
    have hsend : send_message resp = .error ⟨resp.status, resp.body⟩ := by
      rw [send_message, if_pos (by simpa using hfail)]
    simp [handle_message, hsend]
  · intro hempty
    by_cases h200 : resp.status = 200
    · have hsend : send_message resp = .ok resp.parsed := by
        rw [send_message, if_neg (by simp [h200])]
      simp [handle_message, hsend, hempty]
    · have hsend : send_message resp = .error ⟨resp.status, resp.body⟩ := by
        rw [send_message, if_pos (by simpa using h200)]
      simp [handle_message, hsend]

/-- Witness for C2 at a concrete 500 response against an empty database. -/
theorem C2_witness :
    handle_message ⟨[], [], []⟩ 1 "hi" ⟨500, "oops", ⟨[]⟩⟩ =
      (⟨[], [], []⟩, generic_error_message) :=
  (C2_model_failure_preserves_state ⟨[], [], []⟩ 1 "hi"
    ⟨500, "oops", ⟨[]⟩⟩).1 (by decide)

/-- C3: `send_message` raises exactly when the HTTP status is not 200, the
raised error carries the status code and the raw body, and a 200 response
returns the parsed structure, from which `handle_message` extracts
`content[0].text` as the reply. (The embedding consumes one response per
call: there is no retry path.) -/
theorem C3_send_message_error_iff (resp : HttpResponse) (db : DBState)
    (uid : Int) (m : String) :
    ((∃ e, send_message resp = .error e) ↔ resp.status ≠ 200) ∧
    (resp.status ≠ 200 →
      send_message resp = .error ⟨resp.status, resp.body⟩) ∧
    (resp.status = 200 → send_message resp = .ok resp.parsed) ∧
    (∀ c rest, resp.status = 200 → resp.parsed.content = c :: rest →
      (handle_message db uid m resp).2 = c.text) := by
  by_cases h : resp.status = 200
  · have hsend : send_message resp = .ok resp.parsed := by
      rw [send_message, if_neg (by simp [h])]
    refine ⟨⟨?_, ?_⟩, ?_, fun _ => hsend, ?_⟩
    · rintro ⟨e, he⟩
      rw [hsend] at he
      exact absurd he (by simp)
    · intro hne
      exact absurd h hne
    · intro hne
      exact absurd h hne
    · intro c rest _ hcontent
      simp [handle_message, hsend, hcontent]
  · have hsend : send_message resp = .error ⟨resp.status, resp.body⟩ := by
      rw [send_message, if_pos (by simpa using h)]
    exact ⟨⟨fun _ => h, fun _ => ⟨_, hsend⟩⟩, fun _ => hsend,
      fun h200 => absurd h200 h, fun c rest h200 _ => absurd h200 h⟩

/-- Witness for C3 at a concrete 404 response and a concrete 200 response. -/
theorem C3_witness :
    send_message ⟨404, "not found", ⟨[]⟩⟩ = .error ⟨404, "not found"⟩ ∧
    (handle_message ⟨[], [], []⟩ 1 "q" ⟨200, "", ⟨[⟨"ans"⟩]⟩⟩).2 = "ans" :=
  ⟨(C3_send_message_error_iff ⟨404, "not found", ⟨[]⟩⟩ ⟨[], [], []⟩ 1 "q").2.1
      (by decide),
   (C3_send_message_error_iff ⟨200, "", ⟨[⟨"ans"⟩]⟩⟩ ⟨[], [], []⟩ 1 "q").2.2.2
      ⟨"ans"⟩ [] rfl rfl⟩

/-- C4 counterexample: the claim says `register_user` on an existing id
completes without raising; in the code the plain `INSERT` into a table whose
PRIMARY KEY is already present raises an integrity error. Concretely, with
user 1 already registered, registering id 1 again yields the error, not a
successful no-op. -/
theorem C4_counterexample :
    register_user ⟨[⟨1, "alice", default_settings⟩], [], []⟩ 1 "alice" =
      .error .integrityError := by
  rfl

/-- C4 (amended): `register_user` on an id already present in the users
table raises a duplicate-key integrity error (and therefore persists
nothing); it is not an idempotent no-op. The caller in `start_command`
guards it behind `user_exists`. -/
theorem C4_register_existing_raises (db : DBState) (uid : Int) (name : String)
    (hex : user_exists db uid = true) :
    register_user db uid name = .error .integrityError := by
  rw [register_user, if_pos hex]

/-- Witness for the amended C4 at a concrete one-user database. -/
theorem C4_witness :
    register_user ⟨[⟨2, "bob", []⟩], [], []⟩ 2 "bob" =
      .error .integrityError :=
  C4_register_existing_raises ⟨[⟨2, "bob", []⟩], [], []⟩ 2 "bob" (by decide)

/-- C5: missing settings keys resolve to the defaults (model
`claude-3-7-sonnet-20250219`, temperature `0.7`, max tokens `4000`) when the
orchestrator builds the API request; and for a registered user,
`update_user_setting k v` then `get_user_settings` maps `k` to `v` and
leaves every other key unchanged. -/
theorem C5_settings_defaulting_and_update (db : DBState) (uid : Int)
    (k : String) (v : SettingVal) :
    ((get_user_settings db uid).getVal "model" = none →
      (request_params db uid).model = .str "claude-3-7-sonnet-20250219") ∧
    ((get_user_settings db uid).getVal "temperature" = none →
      (request_params db uid).temperature = .num (7 / 10)) ∧
    ((get_user_settings db uid).getVal "max_tokens" = none →
      (request_params db uid).max_tokens = .int 4000) ∧
    (user_exists db uid = true →
      (get_user_settings (update_user_setting db uid k v) uid).getVal k =
        some v ∧
      ∀ k2, k2 ≠ k →
        (get_user_settings (update_user_setting db uid k v) uid).getVal k2 =
          (get_user_settings db uid).getVal k2) := by
  refine ⟨?_, ?_, ?_, ?_⟩
  · intro h
    simp [request_params, h]
  · intro h
    simp [request_params, h]
  · intro h
    simp [request_params, h]
  · intro hex
    refine ⟨?_, ?_⟩
    · rw [get_user_settings_update db uid k v hex, getVal_setVal_self]
    · intro k2 hk2
      rw [get_user_settings_update db uid k v hex,
        getVal_setVal_other _ _ _ _ hk2]

/-- Witness for C5: a registered user with an empty settings map gets the
default model, and an update of `temperature` is visible afterwards while
`model` stays absent. -/
theorem C5_witness :
    (request_params ⟨[⟨1, "a", []⟩], [], []⟩ 1).model =
      .str "claude-3-7-sonnet-20250219" ∧
    (get_user_settings
        (update_user_setting ⟨[⟨1, "a", []⟩], [], []⟩ 1 "temperature"
          (.num 1)) 1).getVal "temperature" = some (.num 1) :=
  ⟨(C5_settings_defaulting_and_update ⟨[⟨1, "a", []⟩], [], []⟩ 1 "temperature"
      (.num 1)).1 (by decide),
   ((C5_settings_defaulting_and_update ⟨[⟨1, "a", []⟩], [], []⟩ 1 "temperature"
      (.num 1)).2.2.2 (by decide)).1⟩

/-- C6: `set_temp` stores a new temperature exactly when the argument parses
as a float in `[0.0, 1.0]`; an unparsable argument (such as `"abc"`) leaves
the state untouched and returns the corrective message, an out-of-range one
(such as `"1.5"`) leaves the state untouched and returns the range message. -/
theorem C6_set_temp_validation (db : DBState) (uid : Int) (arg : String) :
    (float_of_string arg = none →
      set_temp_command db uid [arg] = (db, set_temp_value_message)) ∧
    (∀ t, float_of_string arg = some t → ¬(0 ≤ t ∧ t ≤ 1) →
      set_temp_command db uid [arg] = (db, set_temp_range_message)) ∧
    (∀ t, float_of_string arg = some t → (0 ≤ t ∧ t ≤ 1) →
      set_temp_command db uid [arg] =
        (update_user_setting db uid "temperature" (.num t),
         "Temperature установлен на " ++ toString t ++ ".")) ∧
    float_of_string "abc" = none ∧
    float_of_string "1.5" = some (3 / 2) := by
  refine ⟨?_, ?_, ?_, float_of_string_abc, float_of_string_15⟩
  · intro h
    simp [set_temp_command, h]
  · intro t ht hrange
    simp [set_temp_command, ht, hrange]
  · intro t ht hrange
    simp [set_temp_command, ht, hrange]

/-- Witness for C6 at the two failure inputs named by the claim. -/
theorem C6_witness :
    set_temp_command ⟨[⟨1, "a", default_settings⟩], [], []⟩ 1 ["abc"] =
      (⟨[⟨1, "a", default_settings⟩], [], []⟩, set_temp_value_message) ∧
    set_temp_command ⟨[⟨1, "a", default_settings⟩], [], []⟩ 1 ["1.5"] =
      (⟨[⟨1, "a", default_settings⟩], [], []⟩, set_temp_range_message) :=
  ⟨(C6_set_temp_validation ⟨[⟨1, "a", default_settings⟩], [], []⟩ 1 "abc").1
      float_of_string_abc,
   (C6_set_temp_validation ⟨[⟨1, "a", default_settings⟩], [], []⟩ 1 "1.5").2.1
      (3 / 2) float_of_string_15 (by norm_num)⟩

/-- C7: `clear_session` followed by `get_session` returns the empty list for
every prior stored content — a stored row is emptied, and when no row exists
the lookup already returns `[]`. -/
theorem C7_clear_then_get_empty (db : DBState) (uid : Int) :
    get_session (clear_session db uid) uid = [] :=
  get_session_clear_session db uid

/-- C8: the audit log is append-only and independent of session operations:
`log_conversation` appends one `conversations` row leaving every existing row
(and the other tables) unchanged, and `clear_session` changes only the
`sessions` record of the given user — `conversations`, `users`, and other
users' sessions are untouched. -/
theorem C8_audit_log_append_only (db : DBState) (uid uid2 : Int)
    (um br : String) :
    (log_conversation db uid um br).conversations =
      db.conversations ++ [⟨uid, um, br⟩] ∧
    (log_conversation db uid um br).users = db.users ∧
    (log_conversation db uid um br).sessions = db.sessions ∧
    (clear_session db uid).conversations = db.conversations ∧
    (clear_session db uid).users = db.users ∧
    (uid2 ≠ uid → get_session (clear_session db uid) uid2 = get_session db uid2) :=
  ⟨rfl, rfl, rfl, rfl, rfl,
   fun hne => get_session_clear_session_other db uid uid2 hne⟩

/-- Witness for C8: clearing user 1 leaves user 2's session readable. -/
theorem C8_witness :
    get_session (clear_session ⟨[], [], [⟨1, [⟨"user", "x"⟩]⟩]⟩ 1) 2 =
      get_session ⟨[], [], [⟨1, [⟨"user", "x"⟩]⟩]⟩ 2 :=
  (C8_audit_log_append_only ⟨[], [], [⟨1, [⟨"user", "x"⟩]⟩]⟩ 1 2 "u" "b").2.2.2.2.2
    (by decide)

/-- C9: `update_user_setting` for an id with no users row completes without
error but persists nothing: the UPDATE matches no row, no row is created,
and `get_user_settings` still returns the empty map. -/
theorem C9_update_setting_unregistered_noop (db : DBState) (uid : Int)
    (k : String) (v : SettingVal) (hab : user_exists db uid = false) :
    update_user_setting db uid k v = db ∧
    get_user_settings (update_user_setting db uid k v) uid = [] := by
  have hab' : db.users.any (fun u => u.user_id == uid) = false := hab
  have h := update_user_setting_absent db uid k v hab
  refine ⟨h, ?_⟩
  rw [h, get_user_settings_eq,
    find_none_of_any_false (fun u : UserRow => u.user_id == uid) _ hab']
  rfl

/-- Witness for C9 on the empty database. -/
theorem C9_witness :
    update_user_setting ⟨[], [], []⟩ 5 "model" (.str "m") = ⟨[], [], []⟩ ∧
    get_user_settings (update_user_setting ⟨[], [], []⟩ 5 "model"
      (.str "m")) 5 = [] :=
  C9_update_setting_unregistered_noop ⟨[], [], []⟩ 5 "model" (.str "m")
    (by decide)

/-- C10: registering a fresh id materialises the full default settings in
the store: `register_user` succeeds and an immediate `get_user_settings`
returns exactly the map with the default model, temperature `0.7` and
max tokens `4000` — not an empty map. -/
theorem C10_register_writes_defaults (db : DBState) (uid : Int) (name : String)
    (hab : user_exists db uid = false) :
    register_user db uid name =
      .ok { db with users := db.users ++ [⟨uid, name, default_settings⟩] } ∧
    get_user_settings
      { db with users := db.users ++ [⟨uid, name, default_settings⟩] } uid =
      [("model", .str "claude-3-7-sonnet-20250219"),
       ("temperature", .num (7 / 10)),
       ("max_tokens", .int 4000)] := by
  refine ⟨?_, get_user_settings_append db uid name hab⟩
  rw [register_user, if_neg (by simp [hab])]

/-- Witness for C10 on the empty database. -/
theorem C10_witness :
    register_user ⟨[], [], []⟩ 3 "carol" =
      .ok ⟨[⟨3, "carol", default_settings⟩], [], []⟩ ∧
    get_user_settings ⟨[⟨3, "carol", default_settings⟩], [], []⟩ 3 =
      [("model", .str "claude-3-7-sonnet-20250219"),
       ("temperature", .num (7 / 10)),
       ("max_tokens", .int 4000)] :=
  C10_register_writes_defaults ⟨[], [], []⟩ 3 "carol" (by decide)

end ClaudanfiBot
